import Mathlib

/-!
Shallow embedding of the LocalChefBazaar Express/MongoDB backend
(`src/index.js`).  Collections are modelled as Lean lists of documents;
`findOne` is `List.find?` (first match), `insertOne` appends, and
`updateOne` updates the first matching document (`updateFirst` below),
matching MongoDB driver semantics.  `new Date()` timestamps are `Nat`
parameters, `Math.random()` is a rational parameter `r` with `0 ≤ r < 1`,
and an HTTP response is a status code plus an optional message body.
-/

namespace ChefBazaar

/-- An HTTP response: status code and the optional `message` field of the
JSON body (`none` when the handler sends a driver result object instead). -/
structure Resp where
  status : Nat
  message : Option String
deriving Repr, DecidableEq

/-- A document of the `users` collection, as created and mutated by the
handlers in `src/index.js` (POST /users, PATCH /users/fraud/:id,
PATCH /requests/:id).  `chefId` is `none` until a chef approval sets it. -/
structure User where
  name : String
  email : String
  photo : String
  role : String
  status : String
  chefId : Option String
  createdAt : Nat
deriving Repr, DecidableEq

/-- A document of the `requests` collection (POST /requests).  `rid`
models the Mongo `_id`. -/
structure RoleRequest where
  rid : Nat
  userId : String
  userName : String
  userEmail : String
  requestType : String
  requestStatus : String
  requestTime : Nat
deriving Repr, DecidableEq

/-- A document of the `meals` collection (POST /meals).  `mid` models the
Mongo `_id`; `price` and `rating` are JS numbers, modelled as rationals. -/
structure Meal where
  mid : Nat
  foodName : String
  chefName : String
  chefEmail : String
  chefId : Option String
  price : ℚ
  rating : ℚ
  createdAt : Nat
deriving Repr, DecidableEq

/-- A document of the `orders` collection (POST /orders).  `oid` models
the Mongo `_id`; `otherFields` holds the free-form fields of the client
payload that the handlers never touch. -/
structure Order where
  oid : Nat
  userEmail : String
  chefId : String
  paymentStatus : String
  orderStatus : String
  orderTime : Nat
  paidAt : Option Nat
  otherFields : List (String × String)
deriving Repr, DecidableEq

/-- A document of the `favorites` collection (POST /favorites). -/
structure Favorite where
  userEmail : String
  mealId : String
  addedTime : Nat
deriving Repr, DecidableEq

/-- `updateOne` on a list store: apply `f` to the first element satisfying
`p`, leave everything else untouched (MongoDB `updateOne` semantics). -/
def updateFirst (p : α → Bool) (f : α → α) : List α → List α
  | [] => []
  | x :: xs => if p x then f x :: xs else x :: updateFirst p f xs

/-- Request body of POST /users.  The handler reads only `name`, `email`,
`photo`; any `role`, `status` or `chefId` supplied by the caller is
carried here to show it is ignored. -/
structure UserBody where
  name : String
  email : String
  photo : String
  role : Option String
  status : Option String
  chefId : Option String
deriving Repr, DecidableEq

/-- POST /users (`src/index.js` lines 71-88): if a user with the body's
email exists, respond 200 "User already exists" and change nothing; else
insert a fresh document with `role="user"`, `status="active"`, no
`chefId`, and only the fields name/email/photo/role/status/createdAt. -/
def createUser (body : UserBody) (now : Nat) (users : List User) :
    Resp × List User :=
  match users.find? (fun u => u.email == body.email) with
  | some _ => (⟨200, some "User already exists"⟩, users)
  | none =>
      (⟨200, none⟩,
        users ++ [⟨body.name, body.email, body.photo, "user", "active", none, now⟩])

/-- The duplicate predicate POST /requests checks with `findOne`: same
`userEmail`, same `requestType`, `requestStatus` "pending". -/
def pendingPair (email ty : String) (q : RoleRequest) : Bool :=
  q.userEmail == email && q.requestType == ty && q.requestStatus == "pending"

/-- POST /requests (`src/index.js` lines 110-135): reject with 400 if a
pending request for the same (userEmail, requestType) pair exists, else
insert a new pending request document. -/
def submitRequest (userId userName userEmail requestType : String)
    (now freshId : Nat) (reqs : List RoleRequest) :
    Resp × List RoleRequest :=
  match reqs.find? (pendingPair userEmail requestType) with
  | some _ => (⟨400, some "You already sent this request"⟩, reqs)
  | none =>
      (⟨200, none⟩,
        reqs ++ [⟨freshId, userId, userName, userEmail, requestType, "pending", now⟩])

/-- `Math.floor(1000 + Math.random() * 9000)` with `Math.random() = r`
(`src/index.js` line 160). -/
def genChefNum (r : ℚ) : ℤ := ⌊(1000 : ℚ) + r * 9000⌋

/-- The generated chef identifier string `"chef-" + genChefNum r`. -/
def genChefId (r : ℚ) : String := "chef-" ++ toString (genChefNum r)

/-- PATCH /requests/:id (`src/index.js` lines 144-175): look up the
request; 404 if absent.  If the body status is "approved", `$set` the
matching user's `role` to the request's `requestType`, and additionally
`$set` a freshly generated `chefId` when the type is "chef".  Always
record the body status on the request itself. -/
def resolveRequest (id : Nat) (status : String) (r : ℚ)
    (users : List User) (reqs : List RoleRequest) :
    Resp × List User × List RoleRequest :=
  match reqs.find? (fun q => q.rid == id) with
  | none => (⟨404, some "Request not found"⟩, users, reqs)
  | some request =>
      let users' :=
        if status == "approved" then
          updateFirst (fun u => u.email == request.userEmail)
            (fun u =>
              { u with
                role := request.requestType
                chefId := if request.requestType == "chef" then
                    some (genChefId r) else u.chefId }) users
        else users
      let reqs' := updateFirst (fun q => q.rid == id)
        (fun q => { q with requestStatus := status }) reqs
      (⟨200, none⟩, users', reqs')

/-- Request body of POST /meals (the free-form meal payload; the chef
fields and `createdAt` are stamped by the server). -/
structure MealBody where
  mid : Nat
  foodName : String
  price : ℚ
  rating : ℚ
deriving Repr, DecidableEq

/-- POST /meals (`src/index.js` lines 179-208), after token verification
resolved the caller to `email`: 403 unless the stored user exists with
role "chef"; 403 if that chef's status is "fraud"; else insert the meal
stamped with the chef's denormalized email/name/chefId. -/
def createMeal (email : String) (meal : MealBody) (now : Nat)
    (users : List User) (meals : List Meal) : Resp × List Meal :=
  match users.find? (fun u => u.email == email) with
  | none => (⟨403, some "Only chefs can create meals"⟩, meals)
  | some chef =>
      if chef.role != "chef" then
        (⟨403, some "Only chefs can create meals"⟩, meals)
      else if chef.status == "fraud" then
        (⟨403, some "Fraud chefs cannot create meals"⟩, meals)
      else
        (⟨200, none⟩,
          meals ++ [⟨meal.mid, meal.foodName, chef.name, chef.email,
            chef.chefId, meal.price, meal.rating, now⟩])

/-- Request body of POST /orders.  The handler overwrites any
`paymentStatus`/`orderStatus`/`orderTime` the client sends, so those are
not carried; a client-supplied `paidAt` and free-form fields survive. -/
structure OrderBody where
  oid : Nat
  userEmail : String
  chefId : String
  paidAt : Option Nat
  otherFields : List (String × String)
deriving Repr, DecidableEq

/-- POST /orders (`src/index.js` lines 352-371): 403 only when a stored
user with the order's `userEmail` exists and has status "fraud"
(`user?.status === "fraud"`); otherwise stamp
paymentStatus=pending, orderStatus=pending, orderTime=now and insert. -/
def createOrder (body : OrderBody) (now : Nat)
    (users : List User) (orders : List Order) : Resp × List Order :=
  let user? := users.find? (fun u => u.email == body.userEmail)
  if (match user? with
      | some u => u.status == "fraud"
      | none => false) then
    (⟨403, some "Fraud users cannot place orders"⟩, orders)
  else
    (⟨200, none⟩,
      orders ++ [⟨body.oid, body.userEmail, body.chefId, "pending",
        "pending", now, body.paidAt, body.otherFields⟩])

/-- PATCH /orders/status/:id (`src/index.js` lines 394-401):
unconditional `$set` of `orderStatus` on the addressed order. -/
def setFulfillmentStatus (id : Nat) (newStatus : String)
    (orders : List Order) : List Order :=
  updateFirst (fun o => o.oid == id)
    (fun o => { o with orderStatus := newStatus }) orders

/-- PATCH /orders/payment/:id (`src/index.js` lines 403-418):
unconditional `$set` of paymentStatus="paid", orderStatus="accepted",
paidAt=now on the addressed order. -/
def markPaid (id : Nat) (now : Nat) (orders : List Order) : List Order :=
  updateFirst (fun o => o.oid == id)
    (fun o => { o with paymentStatus := "paid", orderStatus := "accepted",
                       paidAt := some now }) orders

/-- POST /favorites (`src/index.js` lines 460-476): respond 200
"Already added" and change nothing when a favorite with the same
(userEmail, mealId) pair exists; else insert it. -/
def addFavorite (userEmail mealId : String) (now : Nat)
    (favs : List Favorite) : Resp × List Favorite :=
  match favs.find? (fun f => f.userEmail == userEmail && f.mealId == mealId) with
  | some _ => (⟨200, some "Already added"⟩, favs)
  | none => (⟨200, none⟩, favs ++ [⟨userEmail, mealId, now⟩])

/-- Query parameters of GET /meals, already URL-decoded: `search`,
`rating`, `price` are `none` when absent, empty, or "all" (the handler
skips each filter in those cases); `rating` is already `Number(...)`. -/
structure MealsQuery where
  search : Option String
  rating : Option ℚ
  price : Option String
  sort : Option String
deriving Repr, DecidableEq

/-- The Mongo query predicate built by GET /meals (`src/index.js` lines
221-241) for one meal document.  `rmatch pat s` is the document
database's case-insensitive `$regex` test (an external capability), used
on `foodName` and `chefName`. -/
def mealMatches (rmatch : String → String → Bool) (q : MealsQuery)
    (m : Meal) : Bool :=
  (match q.search with
   | none => true
   | some s => rmatch s m.foodName || rmatch s m.chefName) &&
  (match q.rating with
   | none => true
   | some rq => decide (rq ≤ m.rating)) &&
  (match q.price with
   | none => true
   | some p =>
      if p == "low" then decide (m.price < 20)
      else if p == "medium" then decide (20 ≤ m.price) && decide (m.price ≤ 50)
      else if p == "high" then decide (50 < m.price)
      else true)

/-- The sort comparator built by GET /meals (`src/index.js` lines
244-247): price ascending, price descending, rating descending, or no
ordering constraint. -/
def sortLe (sort : Option String) (a b : Meal) : Bool :=
  if sort == some "price-asc" then decide (a.price ≤ b.price)
  else if sort == some "price-dsc" then decide (b.price ≤ a.price)
  else if sort == some "rating-dsc" then decide (b.rating ≤ a.rating)
  else true

/-- GET /meals (`src/index.js` lines 210-265): filter, sort, then
paginate with fixed page size 10 (`skip = (page-1)*10`, `limit = 10`);
returns the page of meals and `Math.ceil(total/10)` as `totalPages`.
JS coerces a missing/zero page to 1; `Nat` subtraction gives the same
skip of 0 there. -/
def listMeals (rmatch : String → String → Bool) (q : MealsQuery)
    (page : Nat) (meals : List Meal) : List Meal × Nat :=
  let filtered := meals.filter (mealMatches rmatch q)
  let sorted := filtered.mergeSort (sortLe q.sort)
  ((sorted.drop ((page - 1) * 10)).take 10, (filtered.length + 9) / 10)

/-- Number of pending requests stored for an (email, requestType) pair. -/
def pendingCount (email ty : String) (reqs : List RoleRequest) : Nat :=
  (reqs.filter (pendingPair email ty)).length

/-- Request-store states reachable through the role-upgrade workflow as
the code implements it, starting from an empty collection: POST /requests
and PATCH /requests/:id with any caller-supplied body status (the handler
validates nothing). -/
inductive ReqReachable : List RoleRequest → Prop
  | init : ReqReachable []
  | submit (uid uname email ty : String) (now fid : Nat)
      {s : List RoleRequest} (h : ReqReachable s) :
      ReqReachable (submitRequest uid uname email ty now fid s).2
  | resolve (id : Nat) (status : String) (r : ℚ) (users : List User)
      {s : List RoleRequest} (h : ReqReachable s) :
      ReqReachable (resolveRequest id status r users s).2.2

/-- Request-store states reachable when PATCH /requests/:id is only ever
invoked with a body status other than "pending" (the admin resolutions
"approved"/"rejected" the spec describes). -/
inductive ReqReachableNoRepend : List RoleRequest → Prop
  | init : ReqReachableNoRepend []
  | submit (uid uname email ty : String) (now fid : Nat)
      {s : List RoleRequest} (h : ReqReachableNoRepend s) :
      ReqReachableNoRepend (submitRequest uid uname email ty now fid s).2
  | resolve (id : Nat) (status : String) (r : ℚ) (users : List User)
      {s : List RoleRequest} (hst : status ≠ "pending")
      (h : ReqReachableNoRepend s) :
      ReqReachableNoRepend (resolveRequest id status r users s).2.2

/-! ## Helper lemmas about the store operations -/

/-- `updateFirst` preserves the length of the store. -/
theorem updateFirst_length (p : α → Bool) (f : α → α) (l : List α) :
    (updateFirst p f l).length = l.length := by
  induction l with
  | nil => rfl
  | cons x xs ih =>
    simp only [updateFirst]
    split <;> simp [ih]

/-- Each position of an `updateFirst` result is either the old document
or the image under `f` of an old document satisfying `p`. -/
theorem updateFirst_getElem? (p : α → Bool) (f : α → α) (l : List α)
    (i : Nat) :
    (updateFirst p f l)[i]? = l[i]? ∨
      ∃ x, l[i]? = some x ∧ p x = true ∧
        (updateFirst p f l)[i]? = some (f x) := by
  induction l generalizing i with
  | nil => left; rfl
  | cons y ys ih =>
    by_cases hp : p y = true
    · cases i with
      | zero => right; exact ⟨y, by simp, hp, by simp [updateFirst, if_pos hp]⟩
      | succ j => left; simp [updateFirst, if_pos hp]
    · cases i with
      | zero => left; simp [updateFirst, if_neg hp]
      | succ j => simpa [updateFirst, if_neg hp] using ih j

/-- `findOne` after `updateFirst` with the same predicate: the first
match is transformed by `f`, provided `f` preserves the predicate. -/
theorem find?_updateFirst (p : α → Bool) (f : α → α)
    (hpf : ∀ x, p (f x) = p x) (l : List α) :
    (updateFirst p f l).find? p = (l.find? p).map f := by
  induction l with
  | nil => rfl
  | cons y ys ih =>
    by_cases hy : p y = true
    · have hfy : p (f y) = true := (hpf y).trans hy
      rw [List.find?_cons_of_pos _ hy]
      simp only [updateFirst, if_pos hy]
      simp [List.find?_cons_of_pos _ hfy]
    · rw [List.find?_cons_of_neg _ hy]
      simp only [updateFirst, if_neg hy]
      rw [List.find?_cons_of_neg _ hy]
      exact ih

/-- If the store has at most one document satisfying `p`, then every
document of `updateFirst p f` that still satisfies `p` is the image of a
matching document under `f`. -/
theorem mem_updateFirst_of_unique (p : α → Bool) (f : α → α)
    (l : List α) (hl : (l.filter p).length ≤ 1) (y : α)
    (hy : y ∈ updateFirst p f l) (hpy : p y = true) :
    ∃ x, p x = true ∧ y = f x := by
  induction l with
  | nil => simp [updateFirst] at hy
  | cons z zs ih =>
    by_cases hz : p z = true
    · simp only [updateFirst, if_pos hz, List.mem_cons] at hy
      rcases hy with h1 | h2
      · exact ⟨z, hz, h1⟩
      · exfalso
        have hz0 : (zs.filter p).length = 0 := by
          simp only [List.filter_cons, if_pos hz, List.length_cons] at hl
          omega
        have hymem : y ∈ zs.filter p := List.mem_filter.mpr ⟨h2, hpy⟩
        rw [List.length_eq_zero.mp hz0] at hymem
        exact absurd hymem (List.not_mem_nil y)
    · simp only [updateFirst, if_neg hz, List.mem_cons] at hy
      rcases hy with h1 | h2
      · rw [h1] at hpy; exact absurd hpy hz
      · exact ih (by simpa [List.filter_cons, hz] using hl) h2

/-- Appending one document changes `pendingCount` by its own
contribution. -/
theorem pendingCount_append (email ty : String) (s : List RoleRequest)
    (q : RoleRequest) :
    pendingCount email ty (s ++ [q]) =
      pendingCount email ty s + (if pendingPair email ty q then 1 else 0) := by
  simp only [pendingCount, List.filter_append]
  split <;> simp_all [List.filter_cons]

/-- Setting a request's status to anything other than "pending" never
increases the number of stored pending requests for a pair. -/
theorem pendingCount_updateFirst_le (email ty : String) (id : Nat)
    (status : String) (hst : status ≠ "pending") (s : List RoleRequest) :
    pendingCount email ty (updateFirst (fun q => q.rid == id)
        (fun q => { q with requestStatus := status }) s) ≤
      pendingCount email ty s := by
  induction s with
  | nil => exact Nat.le_refl _
  | cons x xs ih =>
    by_cases hx : (x.rid == id) = true
    · have hpp : pendingPair email ty { x with requestStatus := status } = false := by
        simp [pendingPair, beq_eq_false_iff_ne.mpr hst]
      have hstep : updateFirst (fun q => q.rid == id)
          (fun q => { q with requestStatus := status }) (x :: xs) =
          { x with requestStatus := status } :: xs := by
        simp [updateFirst, hx]
      rw [hstep]
      simp only [pendingCount, List.filter_cons, hpp, Bool.false_eq_true,
        if_false]
      by_cases hppx : pendingPair email ty x = true
      · simp only [if_pos hppx, List.length_cons]
        omega
      · simp only [if_neg hppx, Bool.false_eq_true, if_false]
        exact Nat.le_refl _
    · have hstep : updateFirst (fun q => q.rid == id)
          (fun q => { q with requestStatus := status }) (x :: xs) =
          x :: updateFirst (fun q => q.rid == id)
            (fun q => { q with requestStatus := status }) xs := by
        simp [updateFirst, hx]
      rw [hstep]
      simp only [pendingCount, List.filter_cons] at ih ⊢
      by_cases hppx : pendingPair email ty x = true
      · simp only [if_pos hppx, List.length_cons]
        omega
      · simp only [if_neg hppx]
        exact ih

/-! ## Claim theorems -/

/-- Claim C1: whenever the stored user record for the caller of POST
/meals, resp. for the `userEmail` of a POST /orders payload, has
status "fraud", both handlers respond 403 and insert no document,
whatever the payload. -/
theorem fraud_user_cannot_create_meal_or_order
    (users : List User) (u : User) (email : String) (meal : MealBody)
    (ob : OrderBody) (meals : List Meal) (orders : List Order) (now now2 : Nat)
    (hm : users.find? (fun x => x.email == email) = some u)
    (ho : users.find? (fun x => x.email == ob.userEmail) = some u)
    (hf : u.status = "fraud") :
    (createMeal email meal now users meals).1.status = 403 ∧
    (createMeal email meal now users meals).2 = meals ∧
    (createOrder ob now2 users orders).1.status = 403 ∧
    (createOrder ob now2 users orders).2 = orders := by
  have hfb : (u.status == "fraud") = true := by simp [hf]
  have hMeal : createMeal email meal now users meals =
      if u.role != "chef" then (⟨403, some "Only chefs can create meals"⟩, meals)
      else (⟨403, some "Fraud chefs cannot create meals"⟩, meals) := by
    simp only [createMeal, hm]
    by_cases hr : (u.role != "chef") = true
    · simp [hr]
    · simp [hr, hfb]
  have hOrder : createOrder ob now2 users orders =
      (⟨403, some "Fraud users cannot place orders"⟩, orders) := by
    simp [createOrder, ho, hfb]
  refine ⟨?_, ?_, ?_, ?_⟩
  · rw [hMeal]; split <;> rfl
  · rw [hMeal]; split <;> rfl
  · rw [hOrder]
  · rw [hOrder]

/-- Claim C1 witness: a concrete fraud chef is blocked by both
handlers. -/
theorem fraud_user_cannot_create_meal_or_order_witness :
    (([⟨"A", "a@x", "p", "chef", "fraud", some "chef-1234", 0⟩] : List User).find?
        (fun x => x.email == "a@x") =
      some ⟨"A", "a@x", "p", "chef", "fraud", some "chef-1234", 0⟩) ∧
    ((createMeal "a@x" ⟨1, "rice", 5, 4⟩ 2
        [⟨"A", "a@x", "p", "chef", "fraud", some "chef-1234", 0⟩] []).1.status = 403 ∧
      (createMeal "a@x" ⟨1, "rice", 5, 4⟩ 2
        [⟨"A", "a@x", "p", "chef", "fraud", some "chef-1234", 0⟩] []).2 = [] ∧
      (createOrder ⟨1, "a@x", "chef-9", none, []⟩ 3
        [⟨"A", "a@x", "p", "chef", "fraud", some "chef-1234", 0⟩] []).1.status = 403 ∧
      (createOrder ⟨1, "a@x", "chef-9", none, []⟩ 3
        [⟨"A", "a@x", "p", "chef", "fraud", some "chef-1234", 0⟩] []).2 = []) := by
  refine ⟨by decide, ?_⟩
  exact fraud_user_cannot_create_meal_or_order
    [⟨"A", "a@x", "p", "chef", "fraud", some "chef-1234", 0⟩]
    ⟨"A", "a@x", "p", "chef", "fraud", some "chef-1234", 0⟩
    "a@x" ⟨1, "rice", 5, 4⟩ ⟨1, "a@x", "chef-9", none, []⟩ [] [] 2 3
    (by decide) (by decide) rfl

/-- Claim C4: PATCH /orders/payment/:id sets paymentStatus "paid",
orderStatus "accepted" and a non-null paidAt on the addressed order,
regardless of its prior payment and fulfillment status; all its other
fields are those of the old document. -/
theorem markPaid_sets_paid_accepted
    (orders : List Order) (id now : Nat) (o : Order)
    (h : orders.find? (fun x => x.oid == id) = some o) :
    (markPaid id now orders).find? (fun x => x.oid == id) =
      some { o with paymentStatus := "paid", orderStatus := "accepted",
                    paidAt := some now } ∧
    ({ o with paymentStatus := "paid", orderStatus := "accepted",
              paidAt := some now } : Order).paidAt ≠ none := by
  constructor
  · have hmap := find?_updateFirst (fun x => x.oid == id)
      (fun x => { x with paymentStatus := "paid", orderStatus := "accepted",
                         paidAt := some now }) (fun x => rfl) orders
    rw [markPaid, hmap, h]
    rfl
  · simp

/-- Claim C4 witness: a concrete delivered, unpaid order is marked paid
and forced back to "accepted". -/
theorem markPaid_sets_paid_accepted_witness :
    (([⟨1, "a@x", "chef-1", "pending", "delivered", 0, none, []⟩] : List Order).find?
        (fun x => x.oid == 1) =
      some ⟨1, "a@x", "chef-1", "pending", "delivered", 0, none, []⟩) ∧
    ((markPaid 1 7 [⟨1, "a@x", "chef-1", "pending", "delivered", 0, none, []⟩]).find?
        (fun x => x.oid == 1) =
      some ⟨1, "a@x", "chef-1", "paid", "accepted", 0, some 7, []⟩ ∧
     (⟨1, "a@x", "chef-1", "paid", "accepted", 0, some 7, []⟩ : Order).paidAt ≠ none) := by
  refine ⟨by decide, ?_⟩
  exact markPaid_sets_paid_accepted
    [⟨1, "a@x", "chef-1", "pending", "delivered", 0, none, []⟩] 1 7
    ⟨1, "a@x", "chef-1", "pending", "delivered", 0, none, []⟩ (by decide)

/-- Claim C7: PATCH /orders/status/:id overwrites the addressed order's
`orderStatus` with the caller-supplied value — afterwards the lookup of
the addressed order returns exactly the old document with only
`orderStatus` replaced by `newStatus`, for every prior state and every
new status, so no legality check relates old and new — and it touches
nothing else: every position of the store either holds the exact old
document or the addressed document with only `orderStatus` replaced,
and the store's length is unchanged. -/
theorem setFulfillmentStatus_frame
    (orders : List Order) (id : Nat) (newStatus : String) (i : Nat) :
    (setFulfillmentStatus id newStatus orders).length = orders.length ∧
    ((setFulfillmentStatus id newStatus orders).find? (fun o => o.oid == id) =
      (orders.find? (fun o => o.oid == id)).map
        (fun o => { o with orderStatus := newStatus })) ∧
    ((setFulfillmentStatus id newStatus orders)[i]? = orders[i]? ∨
      ∃ o, orders[i]? = some o ∧ (o.oid == id) = true ∧
        (setFulfillmentStatus id newStatus orders)[i]? =
          some { o with orderStatus := newStatus }) := by
  unfold setFulfillmentStatus
  exact ⟨updateFirst_length _ _ _,
    find?_updateFirst (fun o => o.oid == id)
      (fun o => { o with orderStatus := newStatus }) (fun x => rfl) orders,
    updateFirst_getElem? (fun o => o.oid == id)
      (fun o => { o with orderStatus := newStatus }) orders i⟩

/-- Claim C9: when no stored user has the order's `userEmail`, POST
/orders does not reject: the order is inserted with paymentStatus and
orderStatus "pending". -/
theorem createOrder_unknown_user_inserted
    (users : List User) (orders : List Order) (body : OrderBody) (now : Nat)
    (h : users.find? (fun u => u.email == body.userEmail) = none) :
    createOrder body now users orders =
      (⟨200, none⟩, orders ++ [⟨body.oid, body.userEmail, body.chefId,
        "pending", "pending", now, body.paidAt, body.otherFields⟩]) := by
  simp [createOrder, h]

/-- Claim C9 witness: an order for an email with no user record is
inserted pending/pending even though another stored user is fraud. -/
theorem createOrder_unknown_user_inserted_witness :
    (([⟨"B", "b@x", "p", "user", "fraud", none, 0⟩] : List User).find?
        (fun u => u.email == "a@x") = none) ∧
    createOrder ⟨5, "a@x", "chef-1", none, []⟩ 3
        [⟨"B", "b@x", "p", "user", "fraud", none, 0⟩] [] =
      (⟨200, none⟩, [⟨5, "a@x", "chef-1", "pending", "pending", 3, none, []⟩]) := by
  refine ⟨by decide, ?_⟩
  exact createOrder_unknown_user_inserted _ _ _ _ (by decide)

/-- Claim C10: a user document created by POST /users always has
role "user", status "active", no chefId, and exactly the server-chosen
fields; any role/status/chefId in the request body is ignored. -/
theorem createUser_ignores_privileged_fields
    (body : UserBody) (now : Nat) (users : List User)
    (h : users.find? (fun u => u.email == body.email) = none) :
    createUser body now users = (⟨200, none⟩,
      users ++ [⟨body.name, body.email, body.photo, "user", "active", none, now⟩]) := by
  simp [createUser, h]

/-- Claim C10 witness: a body asking for role "admin", status "fraud"
and a chefId still yields a plain active user with no chefId. -/
theorem createUser_ignores_privileged_fields_witness :
    (([] : List User).find? (fun u => u.email == "a@x") = none) ∧
    createUser ⟨"A", "a@x", "p", some "admin", some "fraud", some "chef-9999"⟩ 4 [] =
      (⟨200, none⟩, [⟨"A", "a@x", "p", "user", "active", none, 4⟩]) := by
  refine ⟨rfl, ?_⟩
  exact createUser_ignores_privileged_fields _ _ _ rfl

/-- Claim C6: every meal returned by GET /meals satisfies the price
bracket of the query (`low` means price < 20, `medium` means
20 ≤ price ≤ 50, `high` means price > 50) and, simultaneously, the
search and minimum-rating filters whenever those are given: the filters
compose conjunctively. -/
theorem listMeals_filters_conjunctive
    (rmatch : String → String → Bool) (q : MealsQuery) (page : Nat)
    (meals : List Meal) (m : Meal)
    (hm : m ∈ (listMeals rmatch q page meals).1) :
    (q.price = some "low" → m.price < 20) ∧
    (q.price = some "medium" → 20 ≤ m.price ∧ m.price ≤ 50) ∧
    (q.price = some "high" → 50 < m.price) ∧
    (q.search.isSome = true →
      (rmatch (q.search.getD "") m.foodName ||
        rmatch (q.search.getD "") m.chefName) = true) ∧
    (q.rating.isSome = true → q.rating.getD 0 ≤ m.rating) := by
  simp only [listMeals] at hm
  have h1 : m ∈ (meals.filter (mealMatches rmatch q)).mergeSort (sortLe q.sort) :=
    List.mem_of_mem_drop (List.mem_of_mem_take hm)
  have hmem : m ∈ meals.filter (mealMatches rmatch q) :=
    (List.mergeSort_perm _ _).mem_iff.mp h1
  have hmatch : mealMatches rmatch q m = true := (List.mem_filter.mp hmem).2
  simp only [mealMatches, Bool.and_eq_true] at hmatch
  obtain ⟨⟨hs, hr⟩, hp⟩ := hmatch
  refine ⟨?_, ?_, ?_, ?_, ?_⟩
  · intro hq; rw [hq] at hp; simpa using hp
  · intro hq; rw [hq] at hp; simpa using hp
  · intro hq; rw [hq] at hp; simpa using hp
  · intro hsome
    cases hq : q.search with
    | none => rw [hq] at hsome; simp at hsome
    | some s =>
      rw [hq] at hs
      simp only [hq, Option.getD_some]
      simpa using hs
  · intro hsome
    cases hq : q.rating with
    | none => rw [hq] at hsome; simp at hsome
    | some rq =>
      rw [hq] at hr
      simp only [hq, Option.getD_some]
      simpa using hr

unseal List.merge List.mergeSort in
/-- Claim C6 witness: with all three filters given, the returned cheap
rice meal satisfies all of them at once. -/
theorem listMeals_filters_conjunctive_witness :
    ((⟨1, "rice", "ann", "a@x", none, 10, 4, 0⟩ : Meal) ∈
      (listMeals (fun p s => p == s)
        ⟨some "rice", some 3, some "low", none⟩ 1
        [⟨1, "rice", "ann", "a@x", none, 10, 4, 0⟩,
         ⟨2, "stew", "bob", "b@x", none, 30, 2, 0⟩]).1) ∧
    ((some "low" = some "low" →
        (⟨1, "rice", "ann", "a@x", none, 10, 4, 0⟩ : Meal).price < 20) ∧
     (some "low" = some "medium" →
        20 ≤ (⟨1, "rice", "ann", "a@x", none, 10, 4, 0⟩ : Meal).price ∧
        (⟨1, "rice", "ann", "a@x", none, 10, 4, 0⟩ : Meal).price ≤ 50) ∧
     (some "low" = some "high" →
        50 < (⟨1, "rice", "ann", "a@x", none, 10, 4, 0⟩ : Meal).price) ∧
     ((some "rice" : Option String).isSome = true →
        ((fun p s => p == s) ((some "rice" : Option String).getD "")
            (⟨1, "rice", "ann", "a@x", none, 10, 4, 0⟩ : Meal).foodName ||
         (fun p s => p == s) ((some "rice" : Option String).getD "")
            (⟨1, "rice", "ann", "a@x", none, 10, 4, 0⟩ : Meal).chefName) = true) ∧
     ((some (3:ℚ) : Option ℚ).isSome = true →
        (some (3:ℚ) : Option ℚ).getD 0 ≤
          (⟨1, "rice", "ann", "a@x", none, 10, 4, 0⟩ : Meal).rating)) := by
  refine ⟨by decide, ?_⟩
  exact listMeals_filters_conjunctive (fun p s => p == s)
    ⟨some "rice", some 3, some "low", none⟩ 1
    [⟨1, "rice", "ann", "a@x", none, 10, 4, 0⟩,
     ⟨2, "stew", "bob", "b@x", none, 30, 2, 0⟩]
    ⟨1, "rice", "ann", "a@x", none, 10, 4, 0⟩ (by decide)

/-- One submission step preserves the at-most-one-pending invariant. -/
theorem pendingCount_submit_le (uid uname e t : String) (now fid : Nat)
    (s : List RoleRequest)
    (hinv : ∀ email ty, pendingCount email ty s ≤ 1) :
    ∀ email ty,
      pendingCount email ty (submitRequest uid uname e t now fid s).2 ≤ 1 := by
  intro email ty
  unfold submitRequest
  cases hfind : s.find? (pendingPair e t) with
  | some q => simpa using hinv email ty
  | none =>
    simp only
    rw [pendingCount_append]
    by_cases hpp : pendingPair email ty ⟨fid, uid, uname, e, t, "pending", now⟩ = true
    · have h1 : e = email := by
        have h := hpp
        simp [pendingPair] at h
        exact h.1
      have h2 : t = ty := by
        have h := hpp
        simp [pendingPair] at h
        exact h.2
      have h0 : pendingCount email ty s = 0 := by
        rw [← h1, ← h2]
        have hall := List.find?_eq_none.mp hfind
        simp [pendingCount, List.filter_eq_nil_iff.mpr hall]
      rw [h0, if_pos hpp]
    · rw [if_neg hpp]
      simpa using hinv email ty

/-- One admin resolution step (body status not "pending") preserves the
at-most-one-pending invariant. -/
theorem pendingCount_resolve_le (id : Nat) (status : String) (r : ℚ)
    (users : List User) (s : List RoleRequest) (hst : status ≠ "pending")
    (hinv : ∀ email ty, pendingCount email ty s ≤ 1) :
    ∀ email ty,
      pendingCount email ty (resolveRequest id status r users s).2.2 ≤ 1 := by
  intro email ty
  unfold resolveRequest
  cases hfind : s.find? (fun q => q.rid == id) with
  | none => simpa using hinv email ty
  | some q =>
    simp only
    exact le_trans (pendingCount_updateFirst_le email ty id status hst s)
      (hinv email ty)

/-- Claim C2 counterexample: through the handlers as written, a store
with two pending requests for the same (email, requestType) pair is
reachable, because PATCH /requests/:id accepts the body status
"pending" and re-pends an already approved request; a further duplicate
submission is then rejected, yet the store holds two pending records
for the pair, not exactly one. -/
theorem duplicate_pending_counterexample :
    ReqReachable (resolveRequest 1 "pending" 0 []
        (submitRequest "u" "A" "a@x" "chef" 2 2
          (resolveRequest 1 "approved" 0 []
            (submitRequest "u" "A" "a@x" "chef" 0 1 []).2).2.2).2).2.2 ∧
    pendingCount "a@x" "chef"
      (resolveRequest 1 "pending" 0 []
        (submitRequest "u" "A" "a@x" "chef" 2 2
          (resolveRequest 1 "approved" 0 []
            (submitRequest "u" "A" "a@x" "chef" 0 1 []).2).2.2).2).2.2 = 2 ∧
    (submitRequest "u" "A" "a@x" "chef" 9 9
      (resolveRequest 1 "pending" 0 []
        (submitRequest "u" "A" "a@x" "chef" 2 2
          (resolveRequest 1 "approved" 0 []
            (submitRequest "u" "A" "a@x" "chef" 0 1 []).2).2.2).2).2.2).1.status
      = 400 ∧
    pendingCount "a@x" "chef"
      (submitRequest "u" "A" "a@x" "chef" 9 9
        (resolveRequest 1 "pending" 0 []
          (submitRequest "u" "A" "a@x" "chef" 2 2
            (resolveRequest 1 "approved" 0 []
              (submitRequest "u" "A" "a@x" "chef" 0 1 []).2).2.2).2).2.2).2 ≠ 1 := by
  refine ⟨?_, by decide, by decide, by decide⟩
  exact ReqReachable.resolve 1 "pending" 0 []
    (ReqReachable.submit "u" "A" "a@x" "chef" 2 2
      (ReqReachable.resolve 1 "approved" 0 []
        (ReqReachable.submit "u" "A" "a@x" "chef" 0 1 ReqReachable.init)))

/-- Claim C2 amended: a duplicate submission while a pending request for
the pair exists is rejected with 400 and the store is unchanged; and in
every state reachable when PATCH /requests/:id is never invoked with
body status "pending", at most one pending request per
(email, requestType) pair is stored. -/
theorem duplicate_pending_rejected_and_invariant :
    (∀ (uid uname email ty : String) (now fid : Nat)
        (reqs : List RoleRequest),
        (reqs.find? (pendingPair email ty)).isSome = true →
        submitRequest uid uname email ty now fid reqs =
          (⟨400, some "You already sent this request"⟩, reqs)) ∧
    (∀ s, ReqReachableNoRepend s →
        ∀ email ty, pendingCount email ty s ≤ 1) := by
  constructor
  · intro uid uname email ty now fid reqs hsome
    obtain ⟨q, hq⟩ := Option.isSome_iff_exists.mp hsome
    simp [submitRequest, hq]
  · intro s hs
    induction hs with
    | init => intro email ty; simp [pendingCount]
    | submit uid uname e t now fid h ih =>
        exact pendingCount_submit_le uid uname e t now fid _ ih
    | resolve id status r users hst h ih =>
        exact pendingCount_resolve_le id status r users _ hst ih

/-- Claim C2 witness: a concrete duplicate is rejected with the store
unchanged, and the empty reachable store satisfies the invariant. -/
theorem duplicate_pending_rejected_witness :
    (([⟨1, "u", "n", "a@x", "chef", "pending", 0⟩] : List RoleRequest).find?
        (pendingPair "a@x" "chef")).isSome = true ∧
    submitRequest "u" "n" "a@x" "chef" 1 2
        [⟨1, "u", "n", "a@x", "chef", "pending", 0⟩] =
      (⟨400, some "You already sent this request"⟩,
        [⟨1, "u", "n", "a@x", "chef", "pending", 0⟩]) ∧
    pendingCount "a@x" "chef" [] ≤ 1 := by
  refine ⟨by decide, ?_, ?_⟩
  · exact duplicate_pending_rejected_and_invariant.1 "u" "n" "a@x" "chef" 1 2
      [⟨1, "u", "n", "a@x", "chef", "pending", 0⟩] (by decide)
  · exact duplicate_pending_rejected_and_invariant.2 []
      ReqReachableNoRepend.init "a@x" "chef"

/-- Claim C3: approving a chef-type request sets the matching user's
role to "chef" and a chefId "chef-" ++ n with the generated
n = Math.floor(1000 + Math.random()*9000) always in [1000, 9999];
with the unique-email invariant, every user whose email matches the
request's userEmail ends up with that role and chefId. -/
theorem approve_chef_request_sets_chef_role_and_id
    (users : List User) (reqs : List RoleRequest) (id : Nat) (r : ℚ)
    (q : RoleRequest)
    (hq : reqs.find? (fun x => x.rid == id) = some q)
    (hty : q.requestType = "chef")
    (hr0 : 0 ≤ r) (hr1 : r < 1)
    (huniq : (users.filter (fun u => u.email == q.userEmail)).length ≤ 1) :
    (((resolveRequest id "approved" r users reqs).2.1.filter
        (fun u => u.email == q.userEmail)).all
      (fun u' => u'.role == "chef" && u'.chefId == some (genChefId r)) = true) ∧
    1000 ≤ genChefNum r ∧ genChefNum r ≤ 9999 := by
  have hbound1 : 1000 ≤ genChefNum r := by
    rw [genChefNum]
    refine Int.le_floor.mpr ?_
    push_cast
    nlinarith
  have hbound2 : genChefNum r ≤ 9999 := by
    have hlt : genChefNum r < 10000 := by
      rw [genChefNum, Int.floor_lt]
      push_cast
      nlinarith
    omega
  refine ⟨?_, hbound1, hbound2⟩
  have husers : (resolveRequest id "approved" r users reqs).2.1 =
      updateFirst (fun u => u.email == q.userEmail)
        (fun u =>
          { u with
            role := q.requestType
            chefId := if q.requestType == "chef" then some (genChefId r)
              else u.chefId }) users := by
    simp [resolveRequest, hq]
  rw [husers, List.all_eq_true]
  intro u' hu'
  have hmem := List.mem_filter.mp hu'
  obtain ⟨x, hx, hux⟩ := mem_updateFirst_of_unique _ _ users huniq u'
    hmem.1 hmem.2
  subst hux
  simp [hty]

/-- Claim C3 witness: approving the concrete chef request for a@x makes
the stored user a chef with the freshly generated id, which lies in
[1000, 9999]. -/
theorem approve_chef_request_witness :
    (([⟨1, "uid", "A", "a@x", "chef", "pending", 5⟩] : List RoleRequest).find?
        (fun x => x.rid == 1) =
      some ⟨1, "uid", "A", "a@x", "chef", "pending", 5⟩) ∧
    ((0:ℚ) ≤ 0 ∧ (0:ℚ) < 1) ∧
    ((([⟨"A", "a@x", "p", "user", "active", none, 0⟩] : List User).filter
        (fun u => u.email == "a@x")).length ≤ 1) ∧
    ((((resolveRequest 1 "approved" 0
          [⟨"A", "a@x", "p", "user", "active", none, 0⟩]
          [⟨1, "uid", "A", "a@x", "chef", "pending", 5⟩]).2.1.filter
        (fun u => u.email == "a@x")).all
      (fun u' => u'.role == "chef" && u'.chefId == some (genChefId 0)) = true) ∧
    1000 ≤ genChefNum 0 ∧ genChefNum 0 ≤ 9999) := by
  refine ⟨by decide, ⟨le_refl 0, zero_lt_one⟩, by decide, ?_⟩
  exact approve_chef_request_sets_chef_role_and_id
    [⟨"A", "a@x", "p", "user", "active", none, 0⟩]
    [⟨1, "uid", "A", "a@x", "chef", "pending", 5⟩] 1 0
    ⟨1, "uid", "A", "a@x", "chef", "pending", 5⟩
    (by decide) rfl (le_refl 0) zero_lt_one (by decide)

/-- Claim C5 counterexample: a duplicate pending role request is NOT a
200 soft success: POST /requests answers it with HTTP 400. -/
theorem duplicate_request_not_soft_success :
    (submitRequest "u" "n" "a@x" "chef" 1 2
        [⟨1, "u", "n", "a@x", "chef", "pending", 0⟩]).1.status = 400 ∧
    (submitRequest "u" "n" "a@x" "chef" 1 2
        [⟨1, "u", "n", "a@x", "chef", "pending", 0⟩]).1.status ≠ 200 := by
  decide

/-- Claim C5 amended: duplicate user creation and duplicate favorites
answer 200 with an already-exists/added message and leave the store
unchanged, while a duplicate pending role request answers 400 with a
conflict message and leaves the store unchanged. -/
theorem duplicate_conflict_behaviour :
    (∀ (body : UserBody) (now : Nat) (users : List User),
        (users.find? (fun u => u.email == body.email)).isSome = true →
        createUser body now users = (⟨200, some "User already exists"⟩, users)) ∧
    (∀ (e mid : String) (now : Nat) (favs : List Favorite),
        (favs.find? (fun f => f.userEmail == e && f.mealId == mid)).isSome
          = true →
        addFavorite e mid now favs = (⟨200, some "Already added"⟩, favs)) ∧
    (∀ (uid uname email ty : String) (now fid : Nat)
        (reqs : List RoleRequest),
        (reqs.find? (pendingPair email ty)).isSome = true →
        submitRequest uid uname email ty now fid reqs =
          (⟨400, some "You already sent this request"⟩, reqs)) := by
  refine ⟨?_, ?_, ?_⟩
  · intro body now users hsome
    obtain ⟨u, hu⟩ := Option.isSome_iff_exists.mp hsome
    simp [createUser, hu]
  · intro e mid now favs hsome
    obtain ⟨f, hf⟩ := Option.isSome_iff_exists.mp hsome
    simp [addFavorite, hf]
  · intro uid uname email ty now fid reqs hsome
    obtain ⟨p, hp⟩ := Option.isSome_iff_exists.mp hsome
    simp [submitRequest, hp]

/-- Claim C5 witness: the three concrete duplicate submissions get the
stated responses and change nothing. -/
theorem duplicate_conflict_behaviour_witness :
    (([⟨"A", "a@x", "p", "user", "active", none, 0⟩] : List User).find?
        (fun u => u.email == "a@x")).isSome = true ∧
    createUser ⟨"A", "a@x", "p", none, none, none⟩ 9
        [⟨"A", "a@x", "p", "user", "active", none, 0⟩] =
      (⟨200, some "User already exists"⟩,
        [⟨"A", "a@x", "p", "user", "active", none, 0⟩]) ∧
    addFavorite "a@x" "m1" 9 [⟨"a@x", "m1", 0⟩] =
      (⟨200, some "Already added"⟩, [⟨"a@x", "m1", 0⟩]) ∧
    submitRequest "u" "n" "a@x" "chef" 9 7
        [⟨1, "u", "n", "a@x", "chef", "pending", 0⟩] =
      (⟨400, some "You already sent this request"⟩,
        [⟨1, "u", "n", "a@x", "chef", "pending", 0⟩]) := by
  refine ⟨by decide, ?_, ?_, ?_⟩
  · exact duplicate_conflict_behaviour.1 ⟨"A", "a@x", "p", none, none, none⟩ 9
      [⟨"A", "a@x", "p", "user", "active", none, 0⟩] (by decide)
  · exact duplicate_conflict_behaviour.2.1 "a@x" "m1" 9 [⟨"a@x", "m1", 0⟩]
      (by decide)
  · exact duplicate_conflict_behaviour.2.2 "u" "n" "a@x" "chef" 9 7
      [⟨1, "u", "n", "a@x", "chef", "pending", 0⟩] (by decide)

/-- Claim C8 counterexample: a user who already holds chefId "chef-5500"
has it overwritten with the freshly generated "chef-1000" when a second
chef-type request for the same email is approved, so chefId is not set
at most once. -/
theorem chefId_overwritten_counterexample :
    (resolveRequest 1 "approved" 0
        [⟨"A", "a@x", "p", "chef", "active", some "chef-5500", 0⟩]
        [⟨1, "uid", "A", "a@x", "chef", "pending", 5⟩]).2.1 =
      [⟨"A", "a@x", "p", "chef", "active", some "chef-1000", 0⟩] ∧
    some "chef-1000" ≠ some "chef-5500" := by
  have hn : genChefNum 0 = 1000 := by norm_num [genChefNum]
  have hid : genChefId 0 = "chef-1000" := by
    rw [genChefId, hn]
    decide
  have husers : (resolveRequest 1 "approved" 0
      [⟨"A", "a@x", "p", "chef", "active", some "chef-5500", 0⟩]
      [⟨1, "uid", "A", "a@x", "chef", "pending", 5⟩]).2.1 =
      [⟨"A", "a@x", "p", "chef", "active", some (genChefId 0), 0⟩] := rfl
  rw [husers, hid]
  exact ⟨rfl, by decide⟩

/-- Claim C8 amended: chefId is written only by approval of a chef-type
request, but each such approval overwrites it with the freshly generated
value, whatever was stored before; resolutions with any other status
leave every user document untouched. -/
theorem chefId_overwritten_on_each_approval
    (users : List User) (reqs : List RoleRequest) (id : Nat) (r : ℚ)
    (q : RoleRequest) (status : String)
    (hq : reqs.find? (fun x => x.rid == id) = some q)
    (hty : q.requestType = "chef")
    (hst : status ≠ "approved") :
    ((resolveRequest id "approved" r users reqs).2.1.find?
        (fun u => u.email == q.userEmail) =
      (users.find? (fun u => u.email == q.userEmail)).map
        (fun u => { u with role := "chef", chefId := some (genChefId r) })) ∧
    (resolveRequest id status r users reqs).2.1 = users := by
  constructor
  · have husers : (resolveRequest id "approved" r users reqs).2.1 =
        updateFirst (fun u => u.email == q.userEmail)
          (fun u =>
            { u with
              role := q.requestType
              chefId := if q.requestType == "chef" then some (genChefId r)
                else u.chefId }) users := by
      simp [resolveRequest, hq]
    rw [husers]
    rw [find?_updateFirst (fun u => u.email == q.userEmail)
      (fun u =>
        { u with
          role := q.requestType
          chefId := if q.requestType == "chef" then some (genChefId r)
            else u.chefId })
      (fun x => rfl) users]
    congr 1
    funext u
    simp [hty]
  · unfold resolveRequest
    cases hfind : reqs.find? (fun x => x.rid == id) with
    | none => simp
    | some qq =>
      have hsf : (status == "approved") = false := beq_eq_false_iff_ne.mpr hst
      simp [hsf]

/-- Claim C8 witness: on a user who already has chefId "chef-5500", an
approval rewrites it to the freshly generated id, while a rejection
changes nothing. -/
theorem chefId_overwritten_on_each_approval_witness :
    (([⟨1, "uid", "A", "a@x", "chef", "pending", 5⟩] : List RoleRequest).find?
        (fun x => x.rid == 1) =
      some ⟨1, "uid", "A", "a@x", "chef", "pending", 5⟩) ∧
    ("rejected" : String) ≠ "approved" ∧
    ((resolveRequest 1 "approved" 0
          [⟨"A", "a@x", "p", "chef", "active", some "chef-5500", 0⟩]
          [⟨1, "uid", "A", "a@x", "chef", "pending", 5⟩]).2.1.find?
        (fun u => u.email == "a@x") =
      (([⟨"A", "a@x", "p", "chef", "active", some "chef-5500", 0⟩] : List User).find?
          (fun u => u.email == "a@x")).map
        (fun u => { u with role := "chef", chefId := some (genChefId 0) })) ∧
    (resolveRequest 1 "rejected" 0
        [⟨"A", "a@x", "p", "chef", "active", some "chef-5500", 0⟩]
        [⟨1, "uid", "A", "a@x", "chef", "pending", 5⟩]).2.1 =
      [⟨"A", "a@x", "p", "chef", "active", some "chef-5500", 0⟩] := by
  refine ⟨by decide, by decide, ?_, ?_⟩
  · exact (chefId_overwritten_on_each_approval
      [⟨"A", "a@x", "p", "chef", "active", some "chef-5500", 0⟩]
      [⟨1, "uid", "A", "a@x", "chef", "pending", 5⟩] 1 0
      ⟨1, "uid", "A", "a@x", "chef", "pending", 5⟩ "rejected"
      (by decide) rfl (by decide)).1
  · exact (chefId_overwritten_on_each_approval
      [⟨"A", "a@x", "p", "chef", "active", some "chef-5500", 0⟩]
      [⟨1, "uid", "A", "a@x", "chef", "pending", 5⟩] 1 0
      ⟨1, "uid", "A", "a@x", "chef", "pending", 5⟩ "rejected"
      (by decide) rfl (by decide)).2

end ChefBazaar
